import Mathlib

/-!
# BLE DFU transport (dfu_ble.c): flow control, response encoding, control decode

A shallow embedding of `src/code/fota_background/app/source/dfu_ble.c`.

* The file-scope variables of the C module (`m_dfu`, `m_pkt_notif_target`,
  `m_pkt_notif_target_cnt`, the buffer pool) are the first fields of `Dfu`.
* Every call that leaves the module (`sd_ble_gatts_hvx`,
  `sd_ble_gatts_rw_authorize_reply`, `nrf_dfu_req_handler_on_req`,
  `nrf_dfu_transports_close`) is recorded in a log field of `Dfu`, oldest call
  first, so that "what was sent" is a value one can state theorems about.
* Machine integers are `Nat` with the width applied where the C code stores
  into a narrower type (`% 256` for `uint8_t`, `% 65536` for `uint16_t`).
* The numeric values of the SDK headers (`nrf_dfu_types.h`, `nrf_error.h`,
  `ble_gatts.h`, `ble_gatt.h`) are not part of the sources: they are the
  parameter `Sdk`.
-/

namespace DfuBle

/-! ## Parameters: what the SDK headers define -/

/-- Values of the SDK headers that `dfu_ble.c` is compiled against. -/
structure Sdk where
  NRF_SUCCESS : Nat
  NRF_DFU_OP_RESPONSE : Nat
  NRF_DFU_OP_OBJECT_CREATE : Nat
  NRF_DFU_OP_RECEIPT_NOTIF_SET : Nat
  NRF_DFU_OP_CRC_GET : Nat
  NRF_DFU_OP_OBJECT_EXECUTE : Nat
  NRF_DFU_OP_OBJECT_SELECT : Nat
  NRF_DFU_OP_OBJECT_WRITE : Nat
  NRF_DFU_RES_CODE_SUCCESS : Nat
  NRF_DFU_RES_CODE_EXT_ERROR : Nat
  NRF_DFU_EXT_ERROR_NO_ERROR : Nat
  NRF_DFU_OBJ_TYPE_COMMAND : Nat
  BLE_GATTS_AUTHORIZE_TYPE_INVALID : Nat
  BLE_GATTS_AUTHORIZE_TYPE_WRITE : Nat
  BLE_GATTS_OP_WRITE_REQ : Nat
  BLE_GATT_STATUS_SUCCESS : Nat
  BLE_GATT_STATUS_ATTERR_CPS_CCCD_CONFIG_ERROR : Nat
  /-- The helper of ble_srv_common.h, applied to the two bytes of a CCCD value. -/
  ble_srv_is_notification_enabled : List Nat → Bool

/-- The values the nRF5 SDK gives these names; used for the concrete instances
below. The CCCD helper tests bit 0 of the little-endian 16-bit value. -/
def nrf5 : Sdk where
  NRF_SUCCESS := 0
  NRF_DFU_OP_RESPONSE := 0x60
  NRF_DFU_OP_OBJECT_CREATE := 0x01
  NRF_DFU_OP_RECEIPT_NOTIF_SET := 0x02
  NRF_DFU_OP_CRC_GET := 0x03
  NRF_DFU_OP_OBJECT_EXECUTE := 0x04
  NRF_DFU_OP_OBJECT_SELECT := 0x06
  NRF_DFU_OP_OBJECT_WRITE := 0x08
  NRF_DFU_RES_CODE_SUCCESS := 0x01
  NRF_DFU_RES_CODE_EXT_ERROR := 0x0B
  NRF_DFU_EXT_ERROR_NO_ERROR := 0x00
  NRF_DFU_OBJ_TYPE_COMMAND := 0x01
  BLE_GATTS_AUTHORIZE_TYPE_INVALID := 0x00
  BLE_GATTS_AUTHORIZE_TYPE_WRITE := 0x02
  BLE_GATTS_OP_WRITE_REQ := 0x01
  BLE_GATT_STATUS_SUCCESS := 0x0000
  BLE_GATT_STATUS_ATTERR_CPS_CCCD_CONFIG_ERROR := 0x01FD
  ble_srv_is_notification_enabled := fun v => (v.getD 0 0 + 256 * v.getD 1 0) % 2 == 1

/-! ## Data model -/

/-- The transports registered with DFU_TRANSPORT_REGISTER in this file. -/
inductive Transport where
  | ble_dfu_transport
  deriving DecidableEq, Repr

/-- The request handed to the Request Processor (`nrf_dfu_request_t`). The
members of the C union are separate fields; fields a designated initializer
leaves out are 0. `write_p_data` is the pool buffer the payload was copied to. -/
structure Request where
  request : Nat
  select_object_type : Nat := 0
  create_object_type : Nat := 0
  create_object_size : Nat := 0
  write_p_data : Option Nat := none
  write_len : Nat := 0
  write_bytes : List Nat := []
  deriving DecidableEq, Repr

/-- The completion the Request Processor passes to the callback
(`nrf_dfu_response_t`). Its union members `select`, `write` and `crc` begin
with the same two words, so `select.offset`, `write.offset`, `crc.offset` are
the field `offset`, likewise `crc`; `max_size` is `select.max_size`. -/
structure Response where
  request : Nat
  result : Nat
  offset : Nat := 0
  crc : Nat := 0
  max_size : Nat := 0
  deriving DecidableEq, Repr

/-- Modelled from the spec: the block allocator behind NRF_BALLOC_DEF
(nrf_balloc.c is not among the sources). A fixed set of buffers, each either in
the free set or on loan. -/
structure Pool where
  free : List Nat
  on_loan : List Nat
  deriving DecidableEq, Repr

/-- The module's variables, followed by the log of its outgoing calls. -/
structure Dfu where
  /-- Field `m_dfu.dfu_ctrl_pt_handles.value_handle`. -/
  ctrl_pt_value_handle : Nat
  /-- Field `m_dfu.dfu_pkt_handles.value_handle`. -/
  pkt_value_handle : Nat
  m_pkt_notif_target : Nat
  m_pkt_notif_target_cnt : Nat
  m_buffer_pool : Pool
  /-- The pending extended error kept by nrf_dfu_handling_error.c. -/
  ext_error : Nat
  /-- Each `response_send`: the first `len` bytes of the buffer. -/
  sent : List (List Nat)
  /-- The `gatt_status` of each `sd_ble_gatts_rw_authorize_reply`. -/
  auth_replies : List Nat
  /-- Each request passed to `nrf_dfu_req_handler_on_req`. -/
  submitted : List Request
  /-- The exception argument of each `nrf_dfu_transports_close`. -/
  transports_closed : List Transport
  /-- Each index `i` of a read `p_ble_write_evt->data[i]` in `on_ctrl_pt_write`. -/
  data_reads : List Nat

/-! ## Response encoding (lines 77-162) -/

/-- The local `uint8_t buffer[MAX_RESPONSE_LEN] = {0}` of the callback. -/
def buffer_init : List Nat := [0, 0, 0, 0, 0, 0, 0, 0, 0, 0, 0, 0, 0, 0, 0, 0, 0]

/-- Function `response_send(p_buf, len)`: a notification of the first `len`
bytes; the SoftDevice's return code is dropped by both callers. -/
def response_send (s : Dfu) (p_buf : List Nat) (len : Nat) : Dfu :=
  { s with sent := s.sent ++ [p_buf.take len] }

/-- Function `response_prepare`: the three header bytes; the opcode and the
result are `uint8_t` parameters. Returns the buffer and RESPONSE_HEADER_LEN. -/
def response_prepare (c : Sdk) (p_buffer : List Nat) (op_code result : Nat) : List Nat × Nat :=
  (((p_buffer.set 0 (c.NRF_DFU_OP_RESPONSE % 256)).set 1 (op_code % 256)).set 2 (result % 256), 3)

/-- Modelled from the spec: `uint32_encode` of the SDK's app_util.h ("4-byte
little-endian"), writing at `p_buffer[pos ..]`; returns the buffer and 4. -/
def uint32_encode (value : Nat) (p_buffer : List Nat) (pos : Nat) : List Nat × Nat :=
  ((((p_buffer.set pos (value % 256)).set (pos + 1) (value / 256 % 256)).set
      (pos + 2) (value / 65536 % 256)).set (pos + 3) (value / 16777216 % 256), 4)

/-- Function `response_select_obj_add`: max size, offset, CRC after the header. -/
def response_select_obj_add (p_buffer : List Nat) (max_size fw_offset crc : Nat) :
    List Nat × Nat :=
  let r1 := uint32_encode max_size p_buffer 3
  let offset1 := r1.2 % 65536
  let r2 := uint32_encode fw_offset r1.1 (3 + offset1)
  let offset2 := (offset1 + r2.2) % 65536
  let r3 := uint32_encode crc r2.1 (3 + offset2)
  (r3.1, (offset2 + r3.2) % 65536)

/-- Function `response_crc_add`: offset and CRC after the header. -/
def response_crc_add (p_buffer : List Nat) (fw_offset crc : Nat) : List Nat × Nat :=
  let r1 := uint32_encode fw_offset p_buffer 3
  let offset1 := r1.2 % 65536
  let r2 := uint32_encode crc r1.1 (3 + offset1)
  (r2.1, (offset1 + r2.2) % 65536)

/-- Modelled from the spec: `ext_error_get` of nrf_dfu_handling_error.c, the
read of the pending extended error. -/
def ext_error_get (s : Dfu) : Nat := s.ext_error

/-- Modelled from the spec: `ext_error_set` of nrf_dfu_handling_error.c, the
store of the pending extended error. -/
def ext_error_set (s : Dfu) (error_code : Nat) : Dfu := { s with ext_error := error_code }

/-- Function `response_ext_err_payload_add`: stores the pending extended error
at `p_buffer[buf_offset]`, resets it, returns 1; `result` is not used. -/
def response_ext_err_payload_add (c : Sdk) (s : Dfu) (p_buffer : List Nat) (_result : Nat)
    (buf_offset : Nat) : List Nat × Dfu × Nat :=
  (p_buffer.set buf_offset (ext_error_get s % 256),
   ext_error_set s c.NRF_DFU_EXT_ERROR_NO_ERROR, 1)

/-! ## The completion callback (lines 165-228) -/

/-- Lines 186-227 of `ble_dfu_req_handler_callback`: header, failure branch,
the switch on the opcode, and the send. `len` is a `uint8_t`. -/
def callback_respond (c : Sdk) (s : Dfu) (p_res : Response) : Dfu :=
  let h := response_prepare c buffer_init p_res.request p_res.result
  let len := (0 + h.2) % 256
  if p_res.result ≠ c.NRF_DFU_RES_CODE_SUCCESS then
    if p_res.result = c.NRF_DFU_RES_CODE_EXT_ERROR then
      let e := response_ext_err_payload_add c s h.1 p_res.result len
      response_send e.2.1 e.1 ((len + e.2.2) % 256)
    else
      response_send s h.1 len
  else if p_res.request = c.NRF_DFU_OP_OBJECT_CREATE
      ∨ p_res.request = c.NRF_DFU_OP_OBJECT_EXECUTE then
    response_send s h.1 len
  else if p_res.request = c.NRF_DFU_OP_OBJECT_SELECT then
    let a := response_select_obj_add h.1 p_res.max_size p_res.offset p_res.crc
    response_send s a.1 ((len + a.2) % 256)
  else if p_res.request = c.NRF_DFU_OP_OBJECT_WRITE then
    let a := response_crc_add h.1 p_res.offset p_res.crc
    response_send s a.1 ((len + a.2) % 256)
  else if p_res.request = c.NRF_DFU_OP_CRC_GET then
    let a := response_crc_add h.1 p_res.offset p_res.crc
    response_send s a.1 ((len + a.2) % 256)
  else
    response_send s h.1 len

/-- Function `ble_dfu_req_handler_callback`. Lines 173-184: a Write completion
decrements the 16-bit countdown, returns early unless the target is non-zero
and the countdown reached 0, and otherwise reloads the countdown and rewrites
the opcode to CrcGet. -/
def ble_dfu_req_handler_callback (c : Sdk) (s : Dfu) (p_res : Response) : Dfu :=
  if p_res.request = c.NRF_DFU_OP_OBJECT_WRITE then
    let cnt := (s.m_pkt_notif_target_cnt + 65535) % 65536
    let s1 := { s with m_pkt_notif_target_cnt := cnt }
    if s.m_pkt_notif_target = 0 ∨ (cnt ≠ 0 ∧ s.m_pkt_notif_target > 0) then
      s1
    else
      callback_respond c { s1 with m_pkt_notif_target_cnt := s.m_pkt_notif_target }
        { p_res with request := c.NRF_DFU_OP_CRC_GET }
  else
    callback_respond c s p_res

/-- The completion is not dropped by the early return of line 176: it is no
Write, or the decremented countdown is 0 while the target is not. -/
def reaches_encoder (c : Sdk) (s : Dfu) (p_res : Response) : Prop :=
  p_res.request ≠ c.NRF_DFU_OP_OBJECT_WRITE
    ∨ (s.m_pkt_notif_target ≠ 0 ∧ (s.m_pkt_notif_target_cnt + 65535) % 65536 = 0)

instance (c : Sdk) (s : Dfu) (p_res : Response) : Decidable (reaches_encoder c s p_res) := by
  unfold reaches_encoder; infer_instance

/-- The callback applied to a sequence of completions, in order. -/
def feed (c : Sdk) (s : Dfu) (rs : List Response) : Dfu :=
  rs.foldl (ble_dfu_req_handler_callback c) s

/-- An initial state with the given handles, target, countdown and pool. -/
def Dfu.mk0 (target cnt : Nat) : Dfu where
  ctrl_pt_value_handle := 0x10
  pkt_value_handle := 0x0D
  m_pkt_notif_target := target
  m_pkt_notif_target_cnt := cnt
  m_buffer_pool := { free := [0, 1, 2], on_loan := [] }
  ext_error := 0
  sent := []
  auth_replies := []
  submitted := []
  transports_closed := []
  data_reads := []

/-! ## Events and the outside world -/

/-- The write event (`ble_gatts_evt_write_t`). `data i` is the byte in memory
at `data[i]`; the peer wrote the first `len` of them. -/
structure WriteEvt where
  handle : Nat
  op : Nat
  offset : Nat
  len : Nat
  data : Nat → Nat

/-- The authorize request (`ble_gatts_evt_rw_authorize_request_t`). -/
structure AuthorizeReq where
  type : Nat
  write : WriteEvt

/-- What the calls that leave the module return during one handler run. -/
structure Outside where
  /-- Return code of `sd_ble_gatts_value_get` on the CCCD handle. -/
  value_get_err : Nat
  /-- The two bytes `sd_ble_gatts_value_get` stores in `cccd_val_buf`. -/
  cccd_val : List Nat
  /-- Return code of `sd_ble_gatts_rw_authorize_reply`. -/
  authorize_reply_err : Nat
  /-- Return code of `nrf_dfu_req_handler_on_req` for a request. -/
  on_req : Request → Nat

/-- A write event whose memory holds the given bytes, followed by zeros. -/
def WriteEvt.ofBytes (handle : Nat) (bytes : List Nat) : WriteEvt where
  handle := handle
  op := 1
  offset := 0
  len := bytes.length
  data := fun i => bytes.getD i 0

/-! ## The buffer pool -/

/-- Modelled from the spec: `nrf_balloc_alloc` (nrf_balloc.c is not among the
sources): "returns None (no blocking, no queuing) when all buffers are checked
out", otherwise lends a free buffer. -/
def nrf_balloc_alloc (p : Pool) : Option Nat × Pool :=
  match p.free with
  | [] => (none, p)
  | b :: rest => (some b, { free := rest, on_loan := b :: p.on_loan })

/-- Modelled from the spec: `nrf_balloc_free` (nrf_balloc.c is not among the
sources): "returns a buffer to the free set". -/
def nrf_balloc_free (p : Pool) (b : Nat) : Pool :=
  { free := b :: p.free, on_loan := p.on_loan.erase b }

/-! ## Control point write (lines 238-284) -/

/-- A read of `p_ble_write_evt->data[i]` (a `uint8_t`), recorded in the log. -/
def read_data (s : Dfu) (e : WriteEvt) (i : Nat) : Nat × Dfu :=
  (e.data i % 256, { s with data_reads := s.data_reads ++ [i] })

/-- Modelled from the spec: `uint16_decode(&data[i])` of the SDK's app_util.h
("2-byte little-endian"), reading `data[i]` and `data[i+1]`. -/
def uint16_decode (s : Dfu) (e : WriteEvt) (i : Nat) : Nat × Dfu :=
  let b0 := read_data s e i
  let b1 := read_data b0.2 e (i + 1)
  (b0.1 + 256 * b1.1, b1.2)

/-- Modelled from the spec: `uint32_decode(&data[i])` of the SDK's app_util.h
("4-byte little-endian"), reading `data[i]` to `data[i+3]`. -/
def uint32_decode (s : Dfu) (e : WriteEvt) (i : Nat) : Nat × Dfu :=
  let b0 := read_data s e i
  let b1 := read_data b0.2 e (i + 1)
  let b2 := read_data b1.2 e (i + 2)
  let b3 := read_data b2.2 e (i + 3)
  (b0.1 + 256 * b1.1 + 65536 * b2.1 + 16777216 * b3.1, b3.2)

/-- The call `nrf_dfu_req_handler_on_req(&request)`: logged, return code from
the outside. -/
def nrf_dfu_req_handler_on_req (o : Outside) (s : Dfu) (request : Request) : Nat × Dfu :=
  (o.on_req request, { s with submitted := s.submitted ++ [request] })

/-- Function `on_ctrl_pt_write`: decodes the opcode at `data[0]`, reads the
opcode's fields with no test of `len`, updates the flow-control variables,
and submits the request. Returns the Request Processor's code. -/
def on_ctrl_pt_write (c : Sdk) (o : Outside) (s : Dfu) (e : WriteEvt) : Nat × Dfu :=
  let op := read_data s e 0
  let request : Request := { request := op.1 }
  if op.1 = c.NRF_DFU_OP_OBJECT_SELECT then
    let ty := read_data op.2 e 1
    nrf_dfu_req_handler_on_req o ty.2 { request with select_object_type := ty.1 }
  else if op.1 = c.NRF_DFU_OP_OBJECT_CREATE then
    let s1 := { op.2 with m_pkt_notif_target_cnt := op.2.m_pkt_notif_target }
    let ty := read_data s1 e 1
    let sz := uint32_decode ty.2 e 2
    let request1 := { request with create_object_type := ty.1, create_object_size := sz.1 }
    if ty.1 = c.NRF_DFU_OBJ_TYPE_COMMAND then
      nrf_dfu_req_handler_on_req o
        { sz.2 with transports_closed := sz.2.transports_closed ++ [Transport.ble_dfu_transport] }
        request1
    else
      nrf_dfu_req_handler_on_req o sz.2 request1
  else if op.1 = c.NRF_DFU_OP_RECEIPT_NOTIF_SET then
    let t := uint16_decode op.2 e 1
    let s1 := { t.2 with m_pkt_notif_target := t.1 % 65536 }
    let s2 := { s1 with m_pkt_notif_target_cnt := s1.m_pkt_notif_target }
    nrf_dfu_req_handler_on_req o s2 request
  else
    nrf_dfu_req_handler_on_req o op.2 request

/-! ## The authorization gate (lines 58-74, 293-333, 400-413) -/

/-- Function `is_cccd_configured`, a `bool` function. The SDK defines
`VERIFY_SUCCESS(err_code)` as `if (err_code != NRF_SUCCESS) return err_code;`,
and a `uint32_t` returned as `bool` is true exactly when it is not 0. -/
def is_cccd_configured (c : Sdk) (o : Outside) : Bool :=
  if o.value_get_err ≠ c.NRF_SUCCESS then
    decide (o.value_get_err ≠ 0)
  else
    c.ble_srv_is_notification_enabled o.cccd_val

/-- The call `sd_ble_gatts_rw_authorize_reply` with the given `gatt_status`. -/
def sd_ble_gatts_rw_authorize_reply (o : Outside) (s : Dfu) (gatt_status : Nat) : Nat × Dfu :=
  (o.authorize_reply_err, { s with auth_replies := s.auth_replies ++ [gatt_status] })

/-- Function `on_rw_authorize_req`: false with no reply for an event of another
shape; otherwise one reply, and true when the CCCD test passed and the reply
was accepted. -/
def on_rw_authorize_req (c : Sdk) (o : Outside) (s : Dfu) (r : AuthorizeReq) : Bool × Dfu :=
  if r.type ≠ c.BLE_GATTS_AUTHORIZE_TYPE_WRITE
      ∨ r.write.handle ≠ s.ctrl_pt_value_handle
      ∨ r.write.op ≠ c.BLE_GATTS_OP_WRITE_REQ then
    (false, s)
  else if ¬ (is_cccd_configured c o = true) then
    let rep := sd_ble_gatts_rw_authorize_reply o s c.BLE_GATT_STATUS_ATTERR_CPS_CCCD_CONFIG_ERROR
    (false, rep.2)
  else
    let rep := sd_ble_gatts_rw_authorize_reply o s c.BLE_GATT_STATUS_SUCCESS
    (decide (rep.1 = c.NRF_SUCCESS), rep.2)

/-- Function `dfu_ble_authorize_handler` (the same statements as the
BLE_GATTS_EVT_RW_AUTHORIZE_REQUEST case of `ble_dfu_evt_handler`). -/
def dfu_ble_authorize_handler (c : Sdk) (o : Outside) (s : Dfu) (r : AuthorizeReq) : Dfu :=
  if r.type ≠ c.BLE_GATTS_AUTHORIZE_TYPE_INVALID then
    let a := on_rw_authorize_req c o s r
    if a.1 = true then (on_ctrl_pt_write c o a.2 r.write).2 else a.2
  else
    s

/-! ## Data channel write (lines 348-392) -/

/-- The request `on_write` sets up (lines 370-382) for the buffer it took:
the Write opcode, the buffer with the `len` payload bytes copied to it. -/
def write_request (c : Sdk) (e : WriteEvt) (p_balloc_buf : Nat) : Request :=
  { request := c.NRF_DFU_OP_OBJECT_WRITE
    write_p_data := some p_balloc_buf
    write_len := e.len
    write_bytes := (List.range e.len).map fun i => e.data i % 256 }

/-- Function `on_write`: a write to the packet characteristic takes a pool
buffer, copies the payload, submits a Write request, and frees the buffer
again when the submission is refused. -/
def on_write (c : Sdk) (o : Outside) (s : Dfu) (e : WriteEvt) : Dfu :=
  if e.handle ≠ s.pkt_value_handle then
    s
  else
    match nrf_balloc_alloc s.m_buffer_pool with
    | (none, _) => s
    | (some p_balloc_buf, pool1) =>
      let r := nrf_dfu_req_handler_on_req o { s with m_buffer_pool := pool1 }
        (write_request c e p_balloc_buf)
      if r.1 ≠ c.NRF_SUCCESS then
        { r.2 with m_buffer_pool := nrf_balloc_free r.2.m_buffer_pool p_balloc_buf }
      else
        r.2

/-- The outside world of the concrete instances: the CCCD read returns
`value_get_err` and `cccd_val`, every other call succeeds. -/
def Outside.ok (value_get_err : Nat) (cccd_val : List Nat) : Outside where
  value_get_err := value_get_err
  cccd_val := cccd_val
  authorize_reply_err := 0
  on_req := fun _ => 0

/-- As `Outside.ok` with the CCCD read, but the Request Processor refuses
every request with the given code. -/
def Outside.refusing (rc : Nat) : Outside where
  value_get_err := 0
  cccd_val := [1, 0]
  authorize_reply_err := 0
  on_req := fun _ => rc

/-! ## The BLE event handler (lines 628-655) -/

/-- Values of ble.h, ble_gap.h and ble_gatts.h that the event handler is
compiled against. -/
structure BleIds where
  BLE_GATTS_EVT_WRITE : Nat
  BLE_GATTS_EVT_RW_AUTHORIZE_REQUEST : Nat
  BLE_GAP_EVT_DISCONNECTED : Nat
  BLE_CONN_HANDLE_INVALID : Nat

/-- The values the nRF5 SDK gives these names. -/
def nrf5Ids : BleIds where
  BLE_GATTS_EVT_WRITE := 0x50
  BLE_GATTS_EVT_RW_AUTHORIZE_REQUEST := 0x51
  BLE_GAP_EVT_DISCONNECTED := 0x11
  BLE_CONN_HANDLE_INVALID := 0xFFFF

/-- The event (`ble_evt_t`): its id, the connection it belongs to, and the
members `params.write` and `params.authorize_request` of the GATTS event. -/
structure BleEvt where
  evt_id : Nat
  conn_handle : Nat
  write : WriteEvt
  authorize_request : AuthorizeReq

/-- What the event handler can reach: the module's state, the variable
`m_conn_handle` (declared `extern` on line 53, defined in another file), and
the number of calls of `ble_dfu_service_refresh_time`. -/
structure Session where
  dfu : Dfu
  m_conn_handle : Nat
  refresh_time_calls : Nat

/-- Function `ble_dfu_evt_handler`: the switch on the event id has a case for
BLE_GATTS_EVT_WRITE, a case for BLE_GATTS_EVT_RW_AUTHORIZE_REQUEST (the
statements of `dfu_ble_authorize_handler`), and an empty default. -/
def ble_dfu_evt_handler (c : Sdk) (ids : BleIds) (o : Outside) (m : Session)
    (p_ble_evt : BleEvt) : Session :=
  if p_ble_evt.evt_id = ids.BLE_GATTS_EVT_WRITE then
    let m1 := { m with refresh_time_calls := m.refresh_time_calls + 1 }
    { m1 with dfu := on_write c o m1.dfu p_ble_evt.write }
  else if p_ble_evt.evt_id = ids.BLE_GATTS_EVT_RW_AUTHORIZE_REQUEST then
    { m with dfu := dfu_ble_authorize_handler c o m.dfu p_ble_evt.authorize_request }
  else
    m

/-- A disconnection event of the given connection; the GATTS members are not
meaningful for it. -/
def BleEvt.disconnected (ids : BleIds) (conn_handle : Nat) : BleEvt where
  evt_id := ids.BLE_GAP_EVT_DISCONNECTED
  conn_handle := conn_handle
  write := WriteEvt.ofBytes 0 []
  authorize_request := { type := 0, write := WriteEvt.ofBytes 0 [] }

/-- A write event of the given connection, handle and payload. -/
def BleEvt.written (ids : BleIds) (conn_handle handle : Nat) (bytes : List Nat) : BleEvt where
  evt_id := ids.BLE_GATTS_EVT_WRITE
  conn_handle := conn_handle
  write := WriteEvt.ofBytes handle bytes
  authorize_request := { type := 0, write := WriteEvt.ofBytes handle bytes }

/-- A session on connection `conn` with the given target and countdown. -/
def Session.mk0 (conn target cnt : Nat) : Session where
  dfu := Dfu.mk0 target cnt
  m_conn_handle := conn
  refresh_time_calls := 0

/-! ## The callback with every store into the buffer checked

The same statements as above, with each store `p_buffer[i] = v` tested against
the size of the buffer, and with the `len` handed to `response_send` returned
next to the state. `none` is a store outside the buffer. -/

/-- A store `p_buffer[i] = v`: `none` when `i` is not an index of the buffer. -/
def store (p_buffer : List Nat) (i v : Nat) : Option (List Nat) :=
  if i < p_buffer.length then some (p_buffer.set i v) else none

/-- Function `response_prepare`, stores checked. -/
def response_prepare_checked (c : Sdk) (p_buffer : List Nat) (op_code result : Nat) :
    Option (List Nat × Nat) := do
  let b0 ← store p_buffer 0 (c.NRF_DFU_OP_RESPONSE % 256)
  let b1 ← store b0 1 (op_code % 256)
  let b2 ← store b1 2 (result % 256)
  pure (b2, 3)

/-- Modelled from the spec: `uint32_encode` of the SDK's app_util.h ("4-byte
little-endian"), stores checked. -/
def uint32_encode_checked (value : Nat) (p_buffer : List Nat) (pos : Nat) :
    Option (List Nat × Nat) := do
  let b0 ← store p_buffer pos (value % 256)
  let b1 ← store b0 (pos + 1) (value / 256 % 256)
  let b2 ← store b1 (pos + 2) (value / 65536 % 256)
  let b3 ← store b2 (pos + 3) (value / 16777216 % 256)
  pure (b3, 4)

/-- Function `response_select_obj_add`, stores checked. -/
def response_select_obj_add_checked (p_buffer : List Nat) (max_size fw_offset crc : Nat) :
    Option (List Nat × Nat) := do
  let r1 ← uint32_encode_checked max_size p_buffer 3
  let offset1 := r1.2 % 65536
  let r2 ← uint32_encode_checked fw_offset r1.1 (3 + offset1)
  let offset2 := (offset1 + r2.2) % 65536
  let r3 ← uint32_encode_checked crc r2.1 (3 + offset2)
  pure (r3.1, (offset2 + r3.2) % 65536)

/-- Function `response_crc_add`, stores checked. -/
def response_crc_add_checked (p_buffer : List Nat) (fw_offset crc : Nat) :
    Option (List Nat × Nat) := do
  let r1 ← uint32_encode_checked fw_offset p_buffer 3
  let offset1 := r1.2 % 65536
  let r2 ← uint32_encode_checked crc r1.1 (3 + offset1)
  pure (r2.1, (offset1 + r2.2) % 65536)

/-- Function `response_ext_err_payload_add`, store checked. -/
def response_ext_err_payload_add_checked (c : Sdk) (s : Dfu) (p_buffer : List Nat)
    (_result : Nat) (buf_offset : Nat) : Option (List Nat × Dfu × Nat) := do
  let b ← store p_buffer buf_offset (ext_error_get s % 256)
  pure (b, ext_error_set s c.NRF_DFU_EXT_ERROR_NO_ERROR, 1)

/-- Lines 186-227 of the callback, stores checked: the state after
`response_send` and the `len` it was called with. -/
def callback_respond_checked (c : Sdk) (s : Dfu) (p_res : Response) : Option (Dfu × Nat) := do
  let h ← response_prepare_checked c buffer_init p_res.request p_res.result
  let len := (0 + h.2) % 256
  if p_res.result ≠ c.NRF_DFU_RES_CODE_SUCCESS then
    if p_res.result = c.NRF_DFU_RES_CODE_EXT_ERROR then
      let e ← response_ext_err_payload_add_checked c s h.1 p_res.result len
      pure (response_send e.2.1 e.1 ((len + e.2.2) % 256), (len + e.2.2) % 256)
    else
      pure (response_send s h.1 len, len)
  else if p_res.request = c.NRF_DFU_OP_OBJECT_CREATE
      ∨ p_res.request = c.NRF_DFU_OP_OBJECT_EXECUTE then
    pure (response_send s h.1 len, len)
  else if p_res.request = c.NRF_DFU_OP_OBJECT_SELECT then
    let a ← response_select_obj_add_checked h.1 p_res.max_size p_res.offset p_res.crc
    pure (response_send s a.1 ((len + a.2) % 256), (len + a.2) % 256)
  else if p_res.request = c.NRF_DFU_OP_OBJECT_WRITE then
    let a ← response_crc_add_checked h.1 p_res.offset p_res.crc
    pure (response_send s a.1 ((len + a.2) % 256), (len + a.2) % 256)
  else if p_res.request = c.NRF_DFU_OP_CRC_GET then
    let a ← response_crc_add_checked h.1 p_res.offset p_res.crc
    pure (response_send s a.1 ((len + a.2) % 256), (len + a.2) % 256)
  else
    pure (response_send s h.1 len, len)

/-- Function `ble_dfu_req_handler_callback`, stores checked: the state, and
the `len` handed to `response_send` (`none` after the early return, which
sends nothing). -/
def ble_dfu_req_handler_callback_checked (c : Sdk) (s : Dfu) (p_res : Response) :
    Option (Dfu × Option Nat) :=
  if p_res.request = c.NRF_DFU_OP_OBJECT_WRITE then
    let cnt := (s.m_pkt_notif_target_cnt + 65535) % 65536
    let s1 := { s with m_pkt_notif_target_cnt := cnt }
    if s.m_pkt_notif_target = 0 ∨ (cnt ≠ 0 ∧ s.m_pkt_notif_target > 0) then
      some (s1, none)
    else
      (callback_respond_checked c { s1 with m_pkt_notif_target_cnt := s.m_pkt_notif_target }
        { p_res with request := c.NRF_DFU_OP_CRC_GET }).map fun x => (x.1, some x.2)
  else
    (callback_respond_checked c s p_res).map fun x => (x.1, some x.2)

/-- The opcode the response is encoded with: CrcGet for a Write completion
(line 183), the completion's own opcode otherwise. -/
def encoded_opcode (c : Sdk) (p_res : Response) : Nat :=
  if p_res.request = c.NRF_DFU_OP_OBJECT_WRITE then c.NRF_DFU_OP_CRC_GET else p_res.request

/-- The payload length as the specification words it: 12 for a Select success,
8 for a CrcGet (or rewritten Write) success, 1 for an extended-error failure,
0 otherwise. -/
def spec_payload_len (c : Sdk) (op_code result : Nat) : Nat :=
  if result = c.NRF_DFU_RES_CODE_SUCCESS then
    if op_code = c.NRF_DFU_OP_OBJECT_SELECT then 12
    else if op_code = c.NRF_DFU_OP_CRC_GET then 8
    else 0
  else if result = c.NRF_DFU_RES_CODE_EXT_ERROR then 1
  else 0

/-! ## Runs of the module -/

/-- One input to the module: an authorize request through the gate, a control
point write handed to `on_ctrl_pt_write`, a data channel write, or a
completion from the Request Processor. -/
inductive Input where
  | authorize (o : Outside) (r : AuthorizeReq)
  | ctrl_pt_write (o : Outside) (e : WriteEvt)
  | write (o : Outside) (e : WriteEvt)
  | response (p_res : Response)

/-- The handler of one input. -/
def step (c : Sdk) (s : Dfu) : Input → Dfu
  | .authorize o r => dfu_ble_authorize_handler c o s r
  | .ctrl_pt_write o e => (on_ctrl_pt_write c o s e).2
  | .write o e => on_write c o s e
  | .response p_res => ble_dfu_req_handler_callback c s p_res

/-- The state after a sequence of inputs, handled in order. -/
def run (c : Sdk) (s : Dfu) (inputs : List Input) : Dfu :=
  inputs.foldl (step c) s

/-- The range invariant of the countdown: the target is a 16-bit value, and
while it is not 0 the countdown lies between 1 and the target. -/
def countdown_in_range (s : Dfu) : Prop :=
  s.m_pkt_notif_target < 65536
    ∧ (s.m_pkt_notif_target > 0 →
        1 ≤ s.m_pkt_notif_target_cnt ∧ s.m_pkt_notif_target_cnt ≤ s.m_pkt_notif_target)

/-- A run for the concrete instances: two Write completions while the target
is 0 (the countdown wraps), then SetNotificationTarget 2, then one Write
completion. -/
def inputs_wrap_then_set : List Input :=
  [.response { request := 8, result := 1 }, .response { request := 8, result := 1 },
   .ctrl_pt_write (Outside.ok 0 [1, 0]) (WriteEvt.ofBytes 0x10 [2, 2, 0]),
   .response { request := 8, result := 1 }]

/-! ## Lemmas on the encoder and the flow-control gate -/

/-- Whatever reaches the encoder is sent as one notification that starts with
the response marker, the opcode and the result code. -/
theorem callback_respond_sent (c : Sdk) (s : Dfu) (r : Response) :
    ∃ n, (callback_respond c s r).sent = s.sent ++ [n]
      ∧ n[0]? = some (c.NRF_DFU_OP_RESPONSE % 256)
      ∧ n[1]? = some (r.request % 256)
      ∧ n[2]? = some (r.result % 256) := by
  unfold callback_respond
  split_ifs <;>
    simp [response_send, response_prepare, buffer_init, response_select_obj_add,
      response_crc_add, uint32_encode, response_ext_err_payload_add, ext_error_set,
      ext_error_get]

/-- The encoder leaves the notification target and the countdown alone. -/
theorem callback_respond_vars (c : Sdk) (s : Dfu) (r : Response) :
    (callback_respond c s r).m_pkt_notif_target = s.m_pkt_notif_target
      ∧ (callback_respond c s r).m_pkt_notif_target_cnt = s.m_pkt_notif_target_cnt := by
  unfold callback_respond
  split_ifs <;>
    simp [response_send, response_ext_err_payload_add, ext_error_set]

theorem callback_respond_failure (c : Sdk) (s : Dfu) (r : Response)
    (hfail : r.result ≠ c.NRF_DFU_RES_CODE_SUCCESS) :
    (callback_respond c s r).sent = s.sent ++
        [if r.result = c.NRF_DFU_RES_CODE_EXT_ERROR then
          [c.NRF_DFU_OP_RESPONSE % 256, r.request % 256, r.result % 256, s.ext_error % 256]
        else [c.NRF_DFU_OP_RESPONSE % 256, r.request % 256, r.result % 256]]
      ∧ (callback_respond c s r).ext_error =
        (if r.result = c.NRF_DFU_RES_CODE_EXT_ERROR then c.NRF_DFU_EXT_ERROR_NO_ERROR
          else s.ext_error) := by
  unfold callback_respond
  rw [if_pos hfail]
  split_ifs <;>
    simp [response_send, response_prepare, buffer_init, response_ext_err_payload_add,
      ext_error_set, ext_error_get]

/-- A completion that is not dropped is encoded from a state with the same
log and pending extended error, with the same result code. -/
theorem callback_of_reaches (c : Sdk) (s : Dfu) (r : Response)
    (h : reaches_encoder c s r) :
    ∃ s1 r1, ble_dfu_req_handler_callback c s r = callback_respond c s1 r1
      ∧ s1.sent = s.sent ∧ s1.ext_error = s.ext_error ∧ r1.result = r.result := by
  unfold ble_dfu_req_handler_callback
  by_cases hw : r.request = c.NRF_DFU_OP_OBJECT_WRITE
  · rcases h with h | ⟨h1, h2⟩
    · exact absurd hw h
    · rw [if_pos hw]
      simp only [h1, h2, false_or, ne_eq, not_true_eq_false, false_and, if_false]
      exact ⟨_, _, rfl, rfl, rfl, rfl⟩
  · rw [if_neg hw]
    exact ⟨_, _, rfl, rfl, rfl, rfl⟩

/-- A completion dropped by the early return changes the countdown only. -/
theorem callback_of_not_reaches (c : Sdk) (s : Dfu) (r : Response)
    (h : ¬ reaches_encoder c s r) :
    (ble_dfu_req_handler_callback c s r).sent = s.sent
      ∧ (ble_dfu_req_handler_callback c s r).ext_error = s.ext_error := by
  unfold reaches_encoder at h
  push_neg at h
  obtain ⟨hw, h⟩ := h
  unfold ble_dfu_req_handler_callback
  rw [if_pos hw]
  by_cases ht : s.m_pkt_notif_target = 0
  · simp [ht]
  · have hpos : s.m_pkt_notif_target > 0 := Nat.pos_of_ne_zero ht
    simp [h ht, hpos]

/-- A Write completion that finds the countdown above 1 only decrements it. -/
theorem callback_write_quiet (c : Sdk) (s : Dfu) (r : Response)
    (hr : r.request = c.NRF_DFU_OP_OBJECT_WRITE)
    (h2 : 2 ≤ s.m_pkt_notif_target_cnt) (h3 : s.m_pkt_notif_target_cnt ≤ 65535) :
    (ble_dfu_req_handler_callback c s r).sent = s.sent
      ∧ (ble_dfu_req_handler_callback c s r).m_pkt_notif_target = s.m_pkt_notif_target
      ∧ (ble_dfu_req_handler_callback c s r).m_pkt_notif_target_cnt
          = s.m_pkt_notif_target_cnt - 1 := by
  have hcnt : (s.m_pkt_notif_target_cnt + 65535) % 65536 = s.m_pkt_notif_target_cnt - 1 := by
    omega
  have hne : s.m_pkt_notif_target_cnt - 1 ≠ 0 := by omega
  unfold ble_dfu_req_handler_callback
  rw [if_pos hr]
  by_cases ht : s.m_pkt_notif_target = 0
  · simp [ht, hcnt]
  · have hpos : s.m_pkt_notif_target > 0 := Nat.pos_of_ne_zero ht
    simp [hcnt, hne, hpos]

/-- Feeding one more completion is one more call of the callback. -/
theorem feed_snoc (c : Sdk) (s : Dfu) (rs : List Response) (r : Response) :
    feed c s (rs ++ [r]) = ble_dfu_req_handler_callback c (feed c s rs) r := by
  simp [feed, List.foldl_append]

/-- Write completions, fewer than the countdown, send nothing. -/
theorem feed_write_quiet (c : Sdk) (rs : List Response) :
    ∀ s : Dfu, (∀ r ∈ rs, r.request = c.NRF_DFU_OP_OBJECT_WRITE) →
      rs.length < s.m_pkt_notif_target_cnt → s.m_pkt_notif_target_cnt ≤ 65535 →
      (feed c s rs).sent = s.sent
        ∧ (feed c s rs).m_pkt_notif_target = s.m_pkt_notif_target
        ∧ (feed c s rs).m_pkt_notif_target_cnt = s.m_pkt_notif_target_cnt - rs.length := by
  induction rs with
  | nil => intro s _ _ _; simp [feed]
  | cons r rs ih =>
    intro s hall hlen hmax
    simp only [List.length_cons] at hlen
    obtain ⟨q1, q2, q3⟩ := callback_write_quiet c s r (hall r (List.mem_cons_self r rs))
      (by omega) hmax
    have hstep := ih (ble_dfu_req_handler_callback c s r)
      (fun x hx => hall x (List.mem_cons_of_mem r hx)) (by omega) (by omega)
    have hfeed : feed c s (r :: rs) = feed c (ble_dfu_req_handler_callback c s r) rs := by
      simp [feed]
    rw [hfeed]
    refine ⟨?_, ?_, ?_⟩
    · rw [hstep.1, q1]
    · rw [hstep.2.1, q2]
    · rw [hstep.2.2, q3, List.length_cons]; omega

/-- A successful Write completion that finds the countdown at 1, with a
non-zero target, sends one notification with the CrcGet opcode and reloads
the countdown. -/
theorem callback_write_due (c : Sdk) (s : Dfu) (r : Response)
    (hr : r.request = c.NRF_DFU_OP_OBJECT_WRITE)
    (ht : 0 < s.m_pkt_notif_target) (h1 : s.m_pkt_notif_target_cnt = 1) :
    (∃ n, (ble_dfu_req_handler_callback c s r).sent = s.sent ++ [n]
        ∧ n[1]? = some (c.NRF_DFU_OP_CRC_GET % 256)
        ∧ n[2]? = some (r.result % 256))
      ∧ (ble_dfu_req_handler_callback c s r).m_pkt_notif_target = s.m_pkt_notif_target
      ∧ (ble_dfu_req_handler_callback c s r).m_pkt_notif_target_cnt
          = s.m_pkt_notif_target := by
  have hne : s.m_pkt_notif_target ≠ 0 := by omega
  unfold ble_dfu_req_handler_callback
  rw [if_pos hr]
  simp only [h1, hne, false_or]
  norm_num
  refine ⟨?_, ?_, ?_⟩
  · obtain ⟨n, hn, _, hn1, hn2⟩ := callback_respond_sent c
      { s with m_pkt_notif_target_cnt := s.m_pkt_notif_target }
      { r with request := c.NRF_DFU_OP_CRC_GET }
    exact ⟨n, hn, hn1, hn2⟩
  · exact (callback_respond_vars c _ _).1
  · exact (callback_respond_vars c _ _).2

/-- The control point write leaves the reply log and the sent notifications
as they were. -/
theorem on_ctrl_pt_write_frame (c : Sdk) (o : Outside) (s : Dfu) (e : WriteEvt) :
    (on_ctrl_pt_write c o s e).2.auth_replies = s.auth_replies
      ∧ (on_ctrl_pt_write c o s e).2.sent = s.sent := by
  unfold on_ctrl_pt_write
  dsimp only
  split_ifs <;>
    simp [nrf_dfu_req_handler_on_req, read_data, uint32_decode, uint16_decode]

/-! ## C1-C3: packet receipt notifications -/

/-- Claim C1: for every target t in 1..65535, from a state with target = t and
countdown = t, t consecutive successful Write completions send nothing during
the first t-1 calls (every proper initial run leaves the log as it was) and
exactly one notification on the t-th; its byte 1 is the CrcGet opcode, and
afterwards the countdown is t again (the target is still t). -/
theorem C1_packet_receipt_interval (c : Sdk) (s : Dfu) (t : Nat) (rs : List Response)
    (hop : c.NRF_DFU_OP_CRC_GET < 256)
    (ht1 : 1 ≤ t) (ht2 : t ≤ 65535)
    (htarget : s.m_pkt_notif_target = t) (hcnt : s.m_pkt_notif_target_cnt = t)
    (hlen : rs.length = t)
    (hrs : ∀ r ∈ rs, r.request = c.NRF_DFU_OP_OBJECT_WRITE
      ∧ r.result = c.NRF_DFU_RES_CODE_SUCCESS) :
    (∀ k, k < t → (feed c s (rs.take k)).sent = s.sent)
      ∧ (∃ n, (feed c s rs).sent = s.sent ++ [n] ∧ n[1]? = some c.NRF_DFU_OP_CRC_GET)
      ∧ (feed c s rs).m_pkt_notif_target_cnt = t
      ∧ (feed c s rs).m_pkt_notif_target = t := by
  have hquiet : ∀ k, k < t →
      (feed c s (rs.take k)).sent = s.sent
        ∧ (feed c s (rs.take k)).m_pkt_notif_target = t
        ∧ (feed c s (rs.take k)).m_pkt_notif_target_cnt = t - k := by
    intro k hk
    have hl : (rs.take k).length = k := by rw [List.length_take]; omega
    have h := feed_write_quiet c (rs.take k) s
      (fun r hr => (hrs r (List.mem_of_mem_take hr)).1) (by omega) (by omega)
    rw [hl, htarget, hcnt] at h
    exact h
  refine ⟨fun k hk => (hquiet k hk).1, ?_⟩
  obtain ⟨q1, q2, q3⟩ := hquiet (t - 1) (by omega)
  have hdrop : (rs.drop (t - 1)).length = 1 := by rw [List.length_drop]; omega
  obtain ⟨r, hr⟩ := List.length_eq_one.mp hdrop
  have hsplit : rs = rs.take (t - 1) ++ [r] := by
    rw [← hr]; exact (List.take_append_drop (t - 1) rs).symm
  have hmem : r ∈ rs := by rw [hsplit]; simp
  have hfeed : feed c s rs = ble_dfu_req_handler_callback c (feed c s (rs.take (t - 1))) r := by
    conv_lhs => rw [hsplit]
    exact feed_snoc c s _ r
  obtain ⟨⟨n, hn, hn1, _⟩, d2, d3⟩ := callback_write_due c (feed c s (rs.take (t - 1))) r
    (hrs r hmem).1 (by omega) (by omega)
  rw [hfeed]
  refine ⟨⟨n, ?_, ?_⟩, ?_, ?_⟩
  · rw [hn, q1]
  · rw [hn1, Nat.mod_eq_of_lt hop]
  · rw [d3, q2]
  · rw [d2, q2]

/-- Claim C1 at target 3 with three successful Write completions. -/
theorem C1_packet_receipt_interval_witness :
    (∀ k, k < 3 → (feed nrf5 (Dfu.mk0 3 3)
        ((List.replicate 3 { request := 8, result := 1, offset := 60, crc := 7 }).take k)).sent
          = (Dfu.mk0 3 3).sent)
      ∧ (∃ n, (feed nrf5 (Dfu.mk0 3 3)
          (List.replicate 3 { request := 8, result := 1, offset := 60, crc := 7 })).sent
            = (Dfu.mk0 3 3).sent ++ [n] ∧ n[1]? = some nrf5.NRF_DFU_OP_CRC_GET)
      ∧ (feed nrf5 (Dfu.mk0 3 3)
          (List.replicate 3 { request := 8, result := 1, offset := 60, crc := 7 })).m_pkt_notif_target_cnt
            = 3
      ∧ (feed nrf5 (Dfu.mk0 3 3)
          (List.replicate 3 { request := 8, result := 1, offset := 60, crc := 7 })).m_pkt_notif_target
            = 3 :=
  C1_packet_receipt_interval nrf5 (Dfu.mk0 3 3) 3
    (List.replicate 3 { request := 8, result := 1, offset := 60, crc := 7 })
    (by decide) (by decide) (by decide) rfl rfl rfl (by decide)

/-- Claim C2 fails as stated: with the target at 0, a Write completion that
failed with result code 10 is dropped by the early return and nothing is sent. -/
theorem C2_counterexample :
    (10 ≠ nrf5.NRF_DFU_RES_CODE_SUCCESS)
      ∧ (ble_dfu_req_handler_callback nrf5 (Dfu.mk0 0 0)
          { request := nrf5.NRF_DFU_OP_OBJECT_WRITE, result := 10 }).sent = [] := by
  decide

/-- Claim C2, amended: a failed completion that is not dropped by the early
return of the flow-control test (it is no Write, or it is the Write that takes
the countdown to 0 under a non-zero target) is sent as exactly one
notification whose byte 2 is the result code; a failed Write that the test
drops (target 0, or countdown not yet 0) sends nothing. -/
theorem C2_failure_reported (c : Sdk) (s : Dfu) (r : Response)
    (hfail : r.result ≠ c.NRF_DFU_RES_CODE_SUCCESS) (hbyte : r.result < 256) :
    (reaches_encoder c s r →
      ∃ n, (ble_dfu_req_handler_callback c s r).sent = s.sent ++ [n]
        ∧ n[2]? = some r.result)
    ∧ (¬ reaches_encoder c s r →
      (ble_dfu_req_handler_callback c s r).sent = s.sent) := by
  constructor
  · intro h
    obtain ⟨s1, r1, heq, hs, _, hres⟩ := callback_of_reaches c s r h
    obtain ⟨h1, _⟩ := callback_respond_failure c s1 r1 (by rw [hres]; exact hfail)
    rw [heq, h1, hs, hres, Nat.mod_eq_of_lt hbyte]
    refine ⟨_, rfl, ?_⟩
    split_ifs <;> simp
  · intro h
    exact (callback_of_not_reaches c s r h).1

/-- Claim C2, amended, at a failed Select (result 10) with target 3. -/
theorem C2_failure_reported_witness :
    (reaches_encoder nrf5 (Dfu.mk0 3 3) { request := 6, result := 10 } →
      ∃ n, (ble_dfu_req_handler_callback nrf5 (Dfu.mk0 3 3) { request := 6, result := 10 }).sent
          = (Dfu.mk0 3 3).sent ++ [n]
        ∧ n[2]? = some 10)
    ∧ (¬ reaches_encoder nrf5 (Dfu.mk0 3 3) { request := 6, result := 10 } →
      (ble_dfu_req_handler_callback nrf5 (Dfu.mk0 3 3) { request := 6, result := 10 }).sent
        = (Dfu.mk0 3 3).sent) :=
  C2_failure_reported nrf5 (Dfu.mk0 3 3) { request := 6, result := 10 } (by decide) (by decide)

/-- Claim C3: with the target at 0, whatever the countdown, no sequence of
Write completions (of any result) sends a notification, and the target
stays 0. -/
theorem C3_target_zero_quiet (c : Sdk) (rs : List Response) :
    ∀ s : Dfu, s.m_pkt_notif_target = 0 →
      (∀ r ∈ rs, r.request = c.NRF_DFU_OP_OBJECT_WRITE) →
      (feed c s rs).sent = s.sent ∧ (feed c s rs).m_pkt_notif_target = 0 := by
  induction rs with
  | nil => intro s h0 _; simpa [feed] using h0
  | cons r rs ih =>
    intro s h0 hall
    have hr := hall r (List.mem_cons_self r rs)
    have hstep : (ble_dfu_req_handler_callback c s r).sent = s.sent
        ∧ (ble_dfu_req_handler_callback c s r).m_pkt_notif_target = 0 := by
      unfold ble_dfu_req_handler_callback
      rw [if_pos hr]
      simp [h0]
    have h := ih (ble_dfu_req_handler_callback c s r) hstep.2
      (fun x hx => hall x (List.mem_cons_of_mem r hx))
    have hfeed : feed c s (r :: rs) = feed c (ble_dfu_req_handler_callback c s r) rs := by
      simp [feed]
    rw [hfeed, h.1, h.2, hstep.1]
    exact ⟨rfl, rfl⟩

/-- Claim C3 at countdown 5 with three Write completions, one of them failed. -/
theorem C3_target_zero_quiet_witness :
    (feed nrf5 (Dfu.mk0 0 5)
        [{ request := 8, result := 1 }, { request := 8, result := 10 },
          { request := 8, result := 1 }]).sent = (Dfu.mk0 0 5).sent
      ∧ (feed nrf5 (Dfu.mk0 0 5)
        [{ request := 8, result := 1 }, { request := 8, result := 10 },
          { request := 8, result := 1 }]).m_pkt_notif_target = 0 :=
  C3_target_zero_quiet nrf5
    [{ request := 8, result := 1 }, { request := 8, result := 10 },
      { request := 8, result := 1 }] (Dfu.mk0 0 5) rfl (by decide)

/-! ## C4: the authorization gate -/

/-- When the CCCD read succeeds the gate follows the CCCD value: notifications
off gives the configuration-error reply, no request and untouched
flow-control variables; notifications on gives the success reply. -/
theorem authorize_gate_read_ok (c : Sdk) (o : Outside) (s : Dfu) (r : AuthorizeReq)
    (hinv : c.BLE_GATTS_AUTHORIZE_TYPE_WRITE ≠ c.BLE_GATTS_AUTHORIZE_TYPE_INVALID)
    (htype : r.type = c.BLE_GATTS_AUTHORIZE_TYPE_WRITE)
    (hhandle : r.write.handle = s.ctrl_pt_value_handle)
    (hop : r.write.op = c.BLE_GATTS_OP_WRITE_REQ)
    (hread : o.value_get_err = c.NRF_SUCCESS) :
    (c.ble_srv_is_notification_enabled o.cccd_val = false →
      (dfu_ble_authorize_handler c o s r).auth_replies
          = s.auth_replies ++ [c.BLE_GATT_STATUS_ATTERR_CPS_CCCD_CONFIG_ERROR]
        ∧ (dfu_ble_authorize_handler c o s r).submitted = s.submitted
        ∧ (dfu_ble_authorize_handler c o s r).m_pkt_notif_target = s.m_pkt_notif_target
        ∧ (dfu_ble_authorize_handler c o s r).m_pkt_notif_target_cnt
            = s.m_pkt_notif_target_cnt)
    ∧ (c.ble_srv_is_notification_enabled o.cccd_val = true →
      (dfu_ble_authorize_handler c o s r).auth_replies
          = s.auth_replies ++ [c.BLE_GATT_STATUS_SUCCESS]) := by
  have hshape : ¬ (r.type ≠ c.BLE_GATTS_AUTHORIZE_TYPE_WRITE
      ∨ r.write.handle ≠ s.ctrl_pt_value_handle
      ∨ r.write.op ≠ c.BLE_GATTS_OP_WRITE_REQ) := by
    simp [htype, hhandle, hop]
  have hty : r.type ≠ c.BLE_GATTS_AUTHORIZE_TYPE_INVALID := by rw [htype]; exact hinv
  constructor
  · intro hoff
    have hcfg : is_cccd_configured c o = false := by
      simp [is_cccd_configured, hread, hoff]
    simp [dfu_ble_authorize_handler, hty, on_rw_authorize_req, hshape, hcfg,
      sd_ble_gatts_rw_authorize_reply]
  · intro hon
    have hcfg : is_cccd_configured c o = true := by
      simp [is_cccd_configured, hread, hon]
    unfold dfu_ble_authorize_handler
    rw [if_pos hty]
    simp only [on_rw_authorize_req, hshape, hcfg, if_false, not_true_eq_false,
      sd_ble_gatts_rw_authorize_reply]
    split_ifs
    · exact (on_ctrl_pt_write_frame c o _ r.write).1
    · rfl

/-- When the CCCD read fails, `is_cccd_configured` returns the non-zero error
code as `true`, and the reply carries the success status. -/
theorem authorize_gate_read_failed (c : Sdk) (o : Outside) (s : Dfu) (r : AuthorizeReq)
    (htype : r.type = c.BLE_GATTS_AUTHORIZE_TYPE_WRITE)
    (hhandle : r.write.handle = s.ctrl_pt_value_handle)
    (hop : r.write.op = c.BLE_GATTS_OP_WRITE_REQ)
    (hsucc : c.NRF_SUCCESS = 0)
    (hread : o.value_get_err ≠ c.NRF_SUCCESS) :
    (on_rw_authorize_req c o s r).2.auth_replies
      = s.auth_replies ++ [c.BLE_GATT_STATUS_SUCCESS] := by
  have hshape : ¬ (r.type ≠ c.BLE_GATTS_AUTHORIZE_TYPE_WRITE
      ∨ r.write.handle ≠ s.ctrl_pt_value_handle
      ∨ r.write.op ≠ c.BLE_GATTS_OP_WRITE_REQ) := by
    simp [htype, hhandle, hop]
  have hcfg : is_cccd_configured c o = true := by
    have h0 : o.value_get_err ≠ 0 := by rw [← hsucc]; exact hread
    simp [is_cccd_configured, hread, h0]
  simp [on_rw_authorize_req, hshape, hcfg, sd_ble_gatts_rw_authorize_reply]

/-- Claim C4 at the failing input: the CCCD read returns the error 0x3401
(system attributes missing) and the control point write [0x02, 0x05, 0x00] of
the accepted shape is answered with the success status, submitted to the
Request Processor, and sets the notification target to 5. -/
theorem C4_cccd_read_error_accepted :
    (0x3401 ≠ nrf5.NRF_SUCCESS)
      ∧ (dfu_ble_authorize_handler nrf5 (Outside.ok 0x3401 [0, 0]) (Dfu.mk0 0 0)
          { type := nrf5.BLE_GATTS_AUTHORIZE_TYPE_WRITE
            write := WriteEvt.ofBytes 0x10 [2, 5, 0] }).auth_replies
          = [nrf5.BLE_GATT_STATUS_SUCCESS]
      ∧ (dfu_ble_authorize_handler nrf5 (Outside.ok 0x3401 [0, 0]) (Dfu.mk0 0 0)
          { type := nrf5.BLE_GATTS_AUTHORIZE_TYPE_WRITE
            write := WriteEvt.ofBytes 0x10 [2, 5, 0] }).submitted
          = [{ request := nrf5.NRF_DFU_OP_RECEIPT_NOTIF_SET }]
      ∧ (dfu_ble_authorize_handler nrf5 (Outside.ok 0x3401 [0, 0]) (Dfu.mk0 0 0)
          { type := nrf5.BLE_GATTS_AUTHORIZE_TYPE_WRITE
            write := WriteEvt.ofBytes 0x10 [2, 5, 0] }).m_pkt_notif_target = 5 := by
  decide

/-! ## C5-C7, C10: control point decode -/

/-- Claim C5 fails as stated: the one-byte write [Select] has length 1 and
the decode reads `data[1]`. -/
theorem C5_counterexample :
    1 ≤ (WriteEvt.ofBytes 0x10 [nrf5.NRF_DFU_OP_OBJECT_SELECT]).len
      ∧ ¬ (∀ i ∈ (on_ctrl_pt_write nrf5 (Outside.ok 0 [1, 0]) (Dfu.mk0 0 0)
            (WriteEvt.ofBytes 0x10 [nrf5.NRF_DFU_OP_OBJECT_SELECT])).2.data_reads,
          i < (WriteEvt.ofBytes 0x10 [nrf5.NRF_DFU_OP_OBJECT_SELECT]).len) := by
  decide

/-- Claim C5, amended: the decode reads only indices below the length of the
write when the write has at least 1 byte, at least 2 for Select, at least 6
for Create, and at least 3 for SetNotificationTarget. -/
theorem C5_decode_reads_within_length (c : Sdk) (o : Outside) (s : Dfu) (e : WriteEvt)
    (hlen : 1 ≤ e.len)
    (hsel : e.data 0 % 256 = c.NRF_DFU_OP_OBJECT_SELECT → 2 ≤ e.len)
    (hcre : e.data 0 % 256 = c.NRF_DFU_OP_OBJECT_CREATE → 6 ≤ e.len)
    (hprn : e.data 0 % 256 = c.NRF_DFU_OP_RECEIPT_NOTIF_SET → 3 ≤ e.len) :
    ∀ i ∈ (on_ctrl_pt_write c o s e).2.data_reads, i ∈ s.data_reads ∨ i < e.len := by
  intro i hi
  by_cases hm : i ∈ s.data_reads
  · exact Or.inl hm
  · right
    unfold on_ctrl_pt_write at hi
    dsimp only at hi
    split_ifs at hi with h1 h2 h3 h4
    · have := hsel h1
      simp [nrf_dfu_req_handler_on_req, read_data, hm] at hi
      omega
    · have := hcre h2
      simp [nrf_dfu_req_handler_on_req, read_data, uint32_decode, hm] at hi
      omega
    · have := hcre h2
      simp [nrf_dfu_req_handler_on_req, read_data, uint32_decode, hm] at hi
      omega
    · have := hprn h4
      simp [nrf_dfu_req_handler_on_req, read_data, uint16_decode, hm] at hi
      omega
    · simp [nrf_dfu_req_handler_on_req, read_data, hm] at hi
      omega

/-- Claim C5, amended, at the six-byte write Create(Data, size 4096). -/
theorem C5_decode_reads_within_length_witness :
    6 ≤ (WriteEvt.ofBytes 0x10 [1, 2, 0, 16, 0, 0]).len
      ∧ ∀ i ∈ (on_ctrl_pt_write nrf5 (Outside.ok 0 [1, 0]) (Dfu.mk0 0 0)
          (WriteEvt.ofBytes 0x10 [1, 2, 0, 16, 0, 0])).2.data_reads,
        i ∈ (Dfu.mk0 0 0).data_reads ∨ i < (WriteEvt.ofBytes 0x10 [1, 2, 0, 16, 0, 0]).len :=
  ⟨by decide,
   C5_decode_reads_within_length nrf5 (Outside.ok 0 [1, 0]) (Dfu.mk0 0 0)
    (WriteEvt.ofBytes 0x10 [1, 2, 0, 16, 0, 0]) (by decide) (by decide) (by decide)
    (by decide)⟩

/-- Claim C6: a successful Select completion is sent as exactly 15 bytes: the
response marker, the Select opcode, the success code, then max_size, offset
and crc, each as 4 bytes, least significant byte first. -/
theorem C6_select_success_encoding (c : Sdk) (s : Dfu) (r : Response)
    (hreq : r.request = c.NRF_DFU_OP_OBJECT_SELECT)
    (hres : r.result = c.NRF_DFU_RES_CODE_SUCCESS)
    (hw : c.NRF_DFU_OP_OBJECT_SELECT ≠ c.NRF_DFU_OP_OBJECT_WRITE)
    (hc : c.NRF_DFU_OP_OBJECT_SELECT ≠ c.NRF_DFU_OP_OBJECT_CREATE)
    (he : c.NRF_DFU_OP_OBJECT_SELECT ≠ c.NRF_DFU_OP_OBJECT_EXECUTE) :
    (ble_dfu_req_handler_callback c s r).sent = s.sent ++
      [[c.NRF_DFU_OP_RESPONSE % 256, c.NRF_DFU_OP_OBJECT_SELECT % 256,
        c.NRF_DFU_RES_CODE_SUCCESS % 256,
        r.max_size % 256, r.max_size / 256 % 256, r.max_size / 65536 % 256,
        r.max_size / 16777216 % 256,
        r.offset % 256, r.offset / 256 % 256, r.offset / 65536 % 256,
        r.offset / 16777216 % 256,
        r.crc % 256, r.crc / 256 % 256, r.crc / 65536 % 256, r.crc / 16777216 % 256]] := by
  unfold ble_dfu_req_handler_callback
  rw [if_neg (by rw [hreq]; exact hw)]
  unfold callback_respond
  simp [hreq, hres, hc, he, response_send, response_prepare, buffer_init,
    response_select_obj_add, uint32_encode]

/-- Claim C6 at (max_size, offset, crc) = (1024, 0, 0): the payload is
00 04 00 00, 00 00 00 00, 00 00 00 00. -/
theorem C6_select_success_encoding_witness :
    (ble_dfu_req_handler_callback nrf5 (Dfu.mk0 0 0)
        { request := nrf5.NRF_DFU_OP_OBJECT_SELECT, result := nrf5.NRF_DFU_RES_CODE_SUCCESS
          max_size := 1024, offset := 0, crc := 0 }).sent
      = [[nrf5.NRF_DFU_OP_RESPONSE, nrf5.NRF_DFU_OP_OBJECT_SELECT,
          nrf5.NRF_DFU_RES_CODE_SUCCESS, 0x00, 0x04, 0x00, 0x00,
          0x00, 0x00, 0x00, 0x00, 0x00, 0x00, 0x00, 0x00]] :=
  (C6_select_success_encoding nrf5 (Dfu.mk0 0 0)
    { request := nrf5.NRF_DFU_OP_OBJECT_SELECT, result := nrf5.NRF_DFU_RES_CODE_SUCCESS
      max_size := 1024, offset := 0, crc := 0 } rfl rfl (by decide) (by decide)
      (by decide)).trans (by decide)

/-- Claim C7: after the control write [SetNotificationTarget, b1, b2, ...] the
target and the countdown are both b1 + 256 * b2, for every earlier target and
countdown and every answer of the Request Processor. -/
theorem C7_set_notification_target (c : Sdk) (o : Outside) (s : Dfu) (e : WriteEvt)
    (b1 b2 : Nat)
    (hop : e.data 0 % 256 = c.NRF_DFU_OP_RECEIPT_NOTIF_SET)
    (hsel : c.NRF_DFU_OP_RECEIPT_NOTIF_SET ≠ c.NRF_DFU_OP_OBJECT_SELECT)
    (hcre : c.NRF_DFU_OP_RECEIPT_NOTIF_SET ≠ c.NRF_DFU_OP_OBJECT_CREATE)
    (h1 : e.data 1 = b1) (h2 : e.data 2 = b2) (hb1 : b1 < 256) (hb2 : b2 < 256) :
    (on_ctrl_pt_write c o s e).2.m_pkt_notif_target = b1 + 256 * b2
      ∧ (on_ctrl_pt_write c o s e).2.m_pkt_notif_target_cnt = b1 + 256 * b2 := by
  have hlt : (b1 + 256 * b2) % 65536 = b1 + 256 * b2 := by omega
  unfold on_ctrl_pt_write
  dsimp only
  rw [if_neg (by simp [read_data, hop, hsel]), if_neg (by simp [read_data, hop, hcre]),
    if_pos (by simp [read_data, hop])]
  simp [nrf_dfu_req_handler_on_req, read_data, uint16_decode, h1, h2,
    Nat.mod_eq_of_lt hb1, Nat.mod_eq_of_lt hb2, hlt]

/-- Claim C7 at [0x02, 0x34, 0x12], earlier target 7 and countdown 2, with a
Request Processor that refuses the request. -/
theorem C7_set_notification_target_witness :
    (on_ctrl_pt_write nrf5 (Outside.refusing 4) (Dfu.mk0 7 2)
        (WriteEvt.ofBytes 0x10 [2, 0x34, 0x12])).2.m_pkt_notif_target = 0x34 + 256 * 0x12
      ∧ (on_ctrl_pt_write nrf5 (Outside.refusing 4) (Dfu.mk0 7 2)
        (WriteEvt.ofBytes 0x10 [2, 0x34, 0x12])).2.m_pkt_notif_target_cnt = 0x34 + 256 * 0x12 :=
  C7_set_notification_target nrf5 (Outside.refusing 4) (Dfu.mk0 7 2)
    (WriteEvt.ofBytes 0x10 [2, 0x34, 0x12]) 0x34 0x12 (by decide) (by decide) (by decide)
    rfl rfl (by decide) (by decide)

/-! ## C8: the extended error byte -/

/-- Claim C8: an encoded response with the extended-error result code is sent
as 4 bytes, the header and the pending extended error E, and the pending
extended error becomes "no error"; a second such response with no
`ext_error_set` in between carries "no error". A failure with another result
code leaves the pending extended error as it was and, when encoded, is sent as
the 3 header bytes. -/
theorem C8_extended_error_one_shot (c : Sdk) (s : Dfu) (r r2 : Response)
    (hne : c.NRF_DFU_RES_CODE_EXT_ERROR ≠ c.NRF_DFU_RES_CODE_SUCCESS)
    (hE : s.ext_error < 256) (hno : c.NRF_DFU_EXT_ERROR_NO_ERROR < 256) :
    (r.result = c.NRF_DFU_RES_CODE_EXT_ERROR → reaches_encoder c s r →
      (∃ op, (ble_dfu_req_handler_callback c s r).sent = s.sent ++
          [[c.NRF_DFU_OP_RESPONSE % 256, op, r.result % 256, s.ext_error]])
        ∧ (ble_dfu_req_handler_callback c s r).ext_error = c.NRF_DFU_EXT_ERROR_NO_ERROR
        ∧ (r2.result = c.NRF_DFU_RES_CODE_EXT_ERROR →
            reaches_encoder c (ble_dfu_req_handler_callback c s r) r2 →
            ∃ op, (ble_dfu_req_handler_callback c
                (ble_dfu_req_handler_callback c s r) r2).sent
              = (ble_dfu_req_handler_callback c s r).sent ++
                [[c.NRF_DFU_OP_RESPONSE % 256, op, r2.result % 256,
                  c.NRF_DFU_EXT_ERROR_NO_ERROR]]))
    ∧ (r.result ≠ c.NRF_DFU_RES_CODE_EXT_ERROR → r.result ≠ c.NRF_DFU_RES_CODE_SUCCESS →
        (ble_dfu_req_handler_callback c s r).ext_error = s.ext_error
        ∧ (reaches_encoder c s r →
            ∃ op, (ble_dfu_req_handler_callback c s r).sent = s.sent ++
              [[c.NRF_DFU_OP_RESPONSE % 256, op, r.result % 256]])) := by
  have ext : ∀ (s0 : Dfu) (r0 : Response), r0.result = c.NRF_DFU_RES_CODE_EXT_ERROR →
      reaches_encoder c s0 r0 →
      (∃ op, (ble_dfu_req_handler_callback c s0 r0).sent = s0.sent ++
          [[c.NRF_DFU_OP_RESPONSE % 256, op, r0.result % 256, s0.ext_error % 256]])
        ∧ (ble_dfu_req_handler_callback c s0 r0).ext_error
            = c.NRF_DFU_EXT_ERROR_NO_ERROR := by
    intro s0 r0 hr hg
    obtain ⟨s1, r1, heq, hs, he, hres⟩ := callback_of_reaches c s0 r0 hg
    have hr1 : r1.result = c.NRF_DFU_RES_CODE_EXT_ERROR := by rw [hres]; exact hr
    obtain ⟨f1, f2⟩ := callback_respond_failure c s1 r1 (by rw [hr1]; exact hne)
    rw [heq, f1, f2, if_pos hr1, if_pos hr1, hs, he, hres]
    exact ⟨⟨_, rfl⟩, rfl⟩
  constructor
  · intro hr hg
    obtain ⟨⟨op, h1⟩, h2⟩ := ext s r hr hg
    rw [Nat.mod_eq_of_lt hE] at h1
    refine ⟨⟨op, h1⟩, h2, ?_⟩
    intro hr2 hg2
    obtain ⟨⟨op2, h3⟩, _⟩ := ext (ble_dfu_req_handler_callback c s r) r2 hr2 hg2
    rw [h2, Nat.mod_eq_of_lt hno] at h3
    exact ⟨op2, h3⟩
  · intro hr hsucc
    by_cases hg : reaches_encoder c s r
    · obtain ⟨s1, r1, heq, hs, he, hres⟩ := callback_of_reaches c s r hg
      have hr1 : r1.result ≠ c.NRF_DFU_RES_CODE_EXT_ERROR := by rw [hres]; exact hr
      obtain ⟨f1, f2⟩ := callback_respond_failure c s1 r1 (by rw [hres]; exact hsucc)
      rw [heq, f1, f2, if_neg hr1, if_neg hr1, hs, he, hres]
      exact ⟨rfl, fun _ => ⟨_, rfl⟩⟩
    · exact ⟨(callback_of_not_reaches c s r hg).2, fun h => absurd h hg⟩

/-- Claim C8 at pending extended error 7: a failed Execute carries 7, the
failed Create that follows carries 0. -/
theorem C8_extended_error_one_shot_witness :
    (∃ op, (ble_dfu_req_handler_callback nrf5 (ext_error_set (Dfu.mk0 0 0) 7)
          { request := 4, result := 11 }).sent
        = (ext_error_set (Dfu.mk0 0 0) 7).sent ++ [[0x60 % 256, op, 11 % 256, 7]])
      ∧ (ble_dfu_req_handler_callback nrf5 (ext_error_set (Dfu.mk0 0 0) 7)
          { request := 4, result := 11 }).ext_error = 0
      ∧ (∃ op, (ble_dfu_req_handler_callback nrf5
            (ble_dfu_req_handler_callback nrf5 (ext_error_set (Dfu.mk0 0 0) 7)
              { request := 4, result := 11 })
            { request := 1, result := 11 }).sent
          = (ble_dfu_req_handler_callback nrf5 (ext_error_set (Dfu.mk0 0 0) 7)
              { request := 4, result := 11 }).sent ++ [[0x60 % 256, op, 11 % 256, 0]]) :=
  have h := (C8_extended_error_one_shot nrf5 (ext_error_set (Dfu.mk0 0 0) 7)
    { request := 4, result := 11 } { request := 1, result := 11 }
    (by decide) (by decide) (by decide)).1 (by decide) (by decide)
  ⟨h.1, h.2.1, h.2.2 (by decide) (by decide)⟩

/-! ## C9: data channel buffers -/

/-- Claim C9: `on_write` changes nothing for a write to another handle or when
the pool has no free buffer (no request, nothing sent); otherwise it submits
one Write request and sends nothing, and the number of buffers on loan grows
by one when the Request Processor accepts the request and is unchanged (the
pool is as before) when it refuses. -/
theorem C9_buffer_accounting (c : Sdk) (o : Outside) (s : Dfu) (e : WriteEvt) :
    (e.handle ≠ s.pkt_value_handle → on_write c o s e = s)
      ∧ (e.handle = s.pkt_value_handle → s.m_buffer_pool.free = [] → on_write c o s e = s)
      ∧ (∀ b rest, e.handle = s.pkt_value_handle → s.m_buffer_pool.free = b :: rest →
          (on_write c o s e).submitted = s.submitted ++ [write_request c e b]
            ∧ (on_write c o s e).sent = s.sent
            ∧ (o.on_req (write_request c e b) ≠ c.NRF_SUCCESS →
                (on_write c o s e).m_buffer_pool.on_loan.length
                    = s.m_buffer_pool.on_loan.length
                  ∧ (on_write c o s e).m_buffer_pool = s.m_buffer_pool)
            ∧ (o.on_req (write_request c e b) = c.NRF_SUCCESS →
                (on_write c o s e).m_buffer_pool.on_loan.length
                    = s.m_buffer_pool.on_loan.length + 1
                  ∧ (on_write c o s e).m_buffer_pool.on_loan
                    = b :: s.m_buffer_pool.on_loan)) := by
  refine ⟨?_, ?_, ?_⟩
  · intro h
    simp [on_write, h]
  · intro h hfree
    simp [on_write, h, nrf_balloc_alloc, hfree]
  · intro b rest h hfree
    have hpool : s.m_buffer_pool = { free := b :: rest, on_loan := s.m_buffer_pool.on_loan } := by
      rw [← hfree]
    by_cases hrc : o.on_req (write_request c e b) = c.NRF_SUCCESS
    · simp [on_write, h, nrf_balloc_alloc, hfree, nrf_dfu_req_handler_on_req, hrc]
    · simp [on_write, h, nrf_balloc_alloc, hfree, nrf_dfu_req_handler_on_req, hrc,
        nrf_balloc_free]
      exact hpool.symm

/-- Claim C10: a Create write calls `nrf_dfu_transports_close`, with the BLE
transport as the exception, exactly once when byte 1 is the Command object
type and not at all for another object type; a write with another opcode
never calls it. -/
theorem C10_create_closes_other_transports (c : Sdk) (o : Outside) (s : Dfu) (e : WriteEvt)
    (hne : c.NRF_DFU_OP_OBJECT_CREATE ≠ c.NRF_DFU_OP_OBJECT_SELECT) :
    (e.data 0 % 256 = c.NRF_DFU_OP_OBJECT_CREATE →
        e.data 1 % 256 = c.NRF_DFU_OBJ_TYPE_COMMAND →
        (on_ctrl_pt_write c o s e).2.transports_closed
          = s.transports_closed ++ [Transport.ble_dfu_transport])
      ∧ (e.data 0 % 256 = c.NRF_DFU_OP_OBJECT_CREATE →
        e.data 1 % 256 ≠ c.NRF_DFU_OBJ_TYPE_COMMAND →
        (on_ctrl_pt_write c o s e).2.transports_closed = s.transports_closed)
      ∧ (e.data 0 % 256 ≠ c.NRF_DFU_OP_OBJECT_CREATE →
        (on_ctrl_pt_write c o s e).2.transports_closed = s.transports_closed) := by
  refine ⟨?_, ?_, ?_⟩
  · intro hop hty
    unfold on_ctrl_pt_write
    dsimp only
    rw [if_neg (by simp [read_data, hop, hne]), if_pos (by simp [read_data, hop]),
      if_pos (by simp [read_data, hty])]
    simp [nrf_dfu_req_handler_on_req, read_data, uint32_decode]
  · intro hop hty
    unfold on_ctrl_pt_write
    dsimp only
    rw [if_neg (by simp [read_data, hop, hne]), if_pos (by simp [read_data, hop]),
      if_neg (by simp [read_data, hty])]
    simp [nrf_dfu_req_handler_on_req, read_data, uint32_decode]
  · intro hop
    unfold on_ctrl_pt_write
    dsimp only
    rw [if_neg (by simp [read_data, hop]) (c := (read_data s e 0).1 = c.NRF_DFU_OP_OBJECT_CREATE)]
    split_ifs <;> simp [nrf_dfu_req_handler_on_req, read_data, uint16_decode]

/-- Claim C10 at Create(Command), one call, and Create(Data), none. -/
theorem C10_create_closes_other_transports_witness :
    (on_ctrl_pt_write nrf5 (Outside.ok 0 [1, 0]) (Dfu.mk0 0 0)
        (WriteEvt.ofBytes 0x10 [1, 1, 0, 1, 0, 0])).2.transports_closed
        = [Transport.ble_dfu_transport]
      ∧ (on_ctrl_pt_write nrf5 (Outside.ok 0 [1, 0]) (Dfu.mk0 0 0)
        (WriteEvt.ofBytes 0x10 [1, 2, 0, 16, 0, 0])).2.transports_closed = [] :=
  ⟨(C10_create_closes_other_transports nrf5 (Outside.ok 0 [1, 0]) (Dfu.mk0 0 0)
      (WriteEvt.ofBytes 0x10 [1, 1, 0, 1, 0, 0]) (by decide)).1 (by decide) (by decide),
   (C10_create_closes_other_transports nrf5 (Outside.ok 0 [1, 0]) (Dfu.mk0 0 0)
      (WriteEvt.ofBytes 0x10 [1, 2, 0, 16, 0, 0]) (by decide)).2.1 (by decide) (by decide)⟩

/-! ## C11: disconnection -/

/-- Claim C11 fails as stated: in a session on connection 0 with target 5
and countdown 3, the disconnection event of connection 0 leaves the countdown
at 3 and `m_conn_handle` at 0 (not the invalid handle), and the data write of
connection 0 that follows is submitted to the Request Processor. -/
theorem C11_counterexample :
    (ble_dfu_evt_handler nrf5 nrf5Ids (Outside.ok 0 [1, 0]) (Session.mk0 0 5 3)
        (BleEvt.disconnected nrf5Ids 0)).dfu.m_pkt_notif_target = 5
      ∧ (ble_dfu_evt_handler nrf5 nrf5Ids (Outside.ok 0 [1, 0]) (Session.mk0 0 5 3)
        (BleEvt.disconnected nrf5Ids 0)).dfu.m_pkt_notif_target_cnt = 3
      ∧ (ble_dfu_evt_handler nrf5 nrf5Ids (Outside.ok 0 [1, 0]) (Session.mk0 0 5 3)
        (BleEvt.disconnected nrf5Ids 0)).m_conn_handle = 0
      ∧ 0 ≠ nrf5Ids.BLE_CONN_HANDLE_INVALID
      ∧ (ble_dfu_evt_handler nrf5 nrf5Ids (Outside.ok 0 [1, 0])
          (ble_dfu_evt_handler nrf5 nrf5Ids (Outside.ok 0 [1, 0]) (Session.mk0 0 5 3)
            (BleEvt.disconnected nrf5Ids 0))
          (BleEvt.written nrf5Ids 0 0x0D [1, 2, 3])).dfu.submitted
        = [{ request := nrf5.NRF_DFU_OP_OBJECT_WRITE, write_p_data := some 0, write_len := 3,
             write_bytes := [1, 2, 3] }] := by
  decide

/-- Claim C11, amended: a disconnection event falls into the empty default
case of `ble_dfu_evt_handler`, so the countdown, the target and `m_conn_handle`
keep their values; a write event that follows is handed to `on_write`
whatever connection it names. -/
theorem C11_disconnect_ignored (c : Sdk) (ids : BleIds) (o : Outside) (m : Session)
    (evt later : BleEvt)
    (hid : evt.evt_id = ids.BLE_GAP_EVT_DISCONNECTED)
    (hw : ids.BLE_GAP_EVT_DISCONNECTED ≠ ids.BLE_GATTS_EVT_WRITE)
    (ha : ids.BLE_GAP_EVT_DISCONNECTED ≠ ids.BLE_GATTS_EVT_RW_AUTHORIZE_REQUEST) :
    ble_dfu_evt_handler c ids o m evt = m
      ∧ (later.evt_id = ids.BLE_GATTS_EVT_WRITE →
          (ble_dfu_evt_handler c ids o (ble_dfu_evt_handler c ids o m evt) later).dfu
            = on_write c o m.dfu later.write) := by
  have h1 : ble_dfu_evt_handler c ids o m evt = m := by
    unfold ble_dfu_evt_handler
    rw [if_neg (by rw [hid]; exact hw), if_neg (by rw [hid]; exact ha)]
  refine ⟨h1, ?_⟩
  intro hl
  rw [h1]
  unfold ble_dfu_evt_handler
  rw [if_pos hl]

/-- Claim C11, amended, at the session and the two events of the counterexample. -/
theorem C11_disconnect_ignored_witness :
    ble_dfu_evt_handler nrf5 nrf5Ids (Outside.ok 0 [1, 0]) (Session.mk0 0 5 3)
        (BleEvt.disconnected nrf5Ids 0) = Session.mk0 0 5 3
      ∧ ((BleEvt.written nrf5Ids 0 0x0D [1, 2, 3]).evt_id = nrf5Ids.BLE_GATTS_EVT_WRITE →
          (ble_dfu_evt_handler nrf5 nrf5Ids (Outside.ok 0 [1, 0])
            (ble_dfu_evt_handler nrf5 nrf5Ids (Outside.ok 0 [1, 0]) (Session.mk0 0 5 3)
              (BleEvt.disconnected nrf5Ids 0))
            (BleEvt.written nrf5Ids 0 0x0D [1, 2, 3])).dfu
            = on_write nrf5 (Outside.ok 0 [1, 0]) (Session.mk0 0 5 3).dfu
                (BleEvt.written nrf5Ids 0 0x0D [1, 2, 3]).write) :=
  C11_disconnect_ignored nrf5 nrf5Ids (Outside.ok 0 [1, 0]) (Session.mk0 0 5 3)
    (BleEvt.disconnected nrf5Ids 0) (BleEvt.written nrf5Ids 0 0x0D [1, 2, 3]) rfl
    (by decide) (by decide)

/-! ## C12: the size of a response -/

/-- The checked encoder never stores outside the buffer, agrees with the
encoder, and hands `response_send` the header length plus the payload length. -/
theorem callback_respond_checked_eq (c : Sdk) (s : Dfu) (r : Response)
    (hsc : c.NRF_DFU_OP_OBJECT_SELECT ≠ c.NRF_DFU_OP_OBJECT_CREATE)
    (hse : c.NRF_DFU_OP_OBJECT_SELECT ≠ c.NRF_DFU_OP_OBJECT_EXECUTE)
    (hgc : c.NRF_DFU_OP_CRC_GET ≠ c.NRF_DFU_OP_OBJECT_CREATE)
    (hge : c.NRF_DFU_OP_CRC_GET ≠ c.NRF_DFU_OP_OBJECT_EXECUTE)
    (hw : r.request ≠ c.NRF_DFU_OP_OBJECT_WRITE) :
    callback_respond_checked c s r
      = some (callback_respond c s r, 3 + spec_payload_len c r.request r.result) := by
  unfold callback_respond_checked callback_respond spec_payload_len
  by_cases hres : r.result = c.NRF_DFU_RES_CODE_SUCCESS
  · by_cases h1 : r.request = c.NRF_DFU_OP_OBJECT_CREATE ∨ r.request = c.NRF_DFU_OP_OBJECT_EXECUTE
    · have hs : r.request ≠ c.NRF_DFU_OP_OBJECT_SELECT := by
        rcases h1 with h | h <;> rw [h] <;> [exact hsc.symm; exact hse.symm]
      have hg : r.request ≠ c.NRF_DFU_OP_CRC_GET := by
        rcases h1 with h | h <;> rw [h] <;> [exact hgc.symm; exact hge.symm]
      simp [hres, h1, hs, hg, response_prepare_checked, response_prepare, store, buffer_init]
    · by_cases h2 : r.request = c.NRF_DFU_OP_OBJECT_SELECT
      · simp [hres, h2, hsc, hse, response_prepare_checked, response_prepare, store,
          buffer_init, response_select_obj_add_checked, response_select_obj_add,
          uint32_encode_checked, uint32_encode]
      · by_cases h3 : r.request = c.NRF_DFU_OP_CRC_GET
        · have h2g : c.NRF_DFU_OP_CRC_GET ≠ c.NRF_DFU_OP_OBJECT_SELECT := by
            rw [← h3]; exact h2
          have hwg : c.NRF_DFU_OP_CRC_GET ≠ c.NRF_DFU_OP_OBJECT_WRITE := by
            rw [← h3]; exact hw
          simp [hres, h3, hgc, hge, h2g, hwg, response_prepare_checked, response_prepare,
            store, buffer_init, response_crc_add_checked, response_crc_add,
            uint32_encode_checked, uint32_encode]
        · simp [hres, h1, h2, h3, hw, response_prepare_checked, response_prepare, store,
            buffer_init]
  · by_cases h1 : r.result = c.NRF_DFU_RES_CODE_EXT_ERROR
    · have hne : c.NRF_DFU_RES_CODE_EXT_ERROR ≠ c.NRF_DFU_RES_CODE_SUCCESS := by
        rw [← h1]; exact hres
      simp [h1, hne, response_prepare_checked, response_prepare, store, buffer_init,
        response_ext_err_payload_add_checked, response_ext_err_payload_add]
    · simp [hres, h1, response_prepare_checked, response_prepare, store, buffer_init]

/-- Claim C12: for every completion and every flow-control state no store of
the callback falls outside the 17-byte buffer (the checked callback returns a
result, the one of the callback), and the length handed to `response_send` is
3 plus the payload length: 12 for a Select success, 8 for a CrcGet or
rewritten Write success, 1 for an extended-error failure, 0 otherwise; this is
at most 17. After the early return nothing is stored or sent. -/
theorem C12_response_size_bound (c : Sdk) (s : Dfu) (r : Response)
    (hsc : c.NRF_DFU_OP_OBJECT_SELECT ≠ c.NRF_DFU_OP_OBJECT_CREATE)
    (hse : c.NRF_DFU_OP_OBJECT_SELECT ≠ c.NRF_DFU_OP_OBJECT_EXECUTE)
    (hgc : c.NRF_DFU_OP_CRC_GET ≠ c.NRF_DFU_OP_OBJECT_CREATE)
    (hge : c.NRF_DFU_OP_CRC_GET ≠ c.NRF_DFU_OP_OBJECT_EXECUTE)
    (hgw : c.NRF_DFU_OP_CRC_GET ≠ c.NRF_DFU_OP_OBJECT_WRITE) :
    (¬ reaches_encoder c s r →
        ble_dfu_req_handler_callback_checked c s r
          = some (ble_dfu_req_handler_callback c s r, none))
      ∧ (reaches_encoder c s r →
        ble_dfu_req_handler_callback_checked c s r
          = some (ble_dfu_req_handler_callback c s r,
              some (3 + spec_payload_len c (encoded_opcode c r) r.result)))
      ∧ 3 + spec_payload_len c (encoded_opcode c r) r.result ≤ 17 := by
  refine ⟨?_, ?_, ?_⟩
  · intro hn
    unfold reaches_encoder at hn
    push_neg at hn
    obtain ⟨hw, hn⟩ := hn
    unfold ble_dfu_req_handler_callback_checked ble_dfu_req_handler_callback
    rw [if_pos hw, if_pos hw]
    by_cases ht : s.m_pkt_notif_target = 0
    · simp [ht]
    · have hpos : s.m_pkt_notif_target > 0 := Nat.pos_of_ne_zero ht
      simp [hn ht, hpos]
  · intro hr
    unfold ble_dfu_req_handler_callback_checked ble_dfu_req_handler_callback encoded_opcode
    by_cases hw : r.request = c.NRF_DFU_OP_OBJECT_WRITE
    · rcases hr with hr | ⟨h1, h2⟩
      · exact absurd hw hr
      · rw [if_pos hw, if_pos hw, if_pos hw]
        simp only [h1, h2, false_or, ne_eq, not_true_eq_false, false_and, if_false]
        rw [callback_respond_checked_eq c _ { r with request := c.NRF_DFU_OP_CRC_GET }
          hsc hse hgc hge hgw]
        rfl
    · rw [if_neg hw, if_neg hw, if_neg hw,
        callback_respond_checked_eq c s r hsc hse hgc hge hw]
      rfl
  · unfold spec_payload_len
    split_ifs <;> omega

/-- Claim C12 at a due Write success (length 3 + 8) and at a Select success
(length 3 + 12). -/
theorem C12_response_size_bound_witness :
    ble_dfu_req_handler_callback_checked nrf5 (Dfu.mk0 1 1)
        { request := 8, result := 1, offset := 4096, crc := 7 }
      = some (ble_dfu_req_handler_callback nrf5 (Dfu.mk0 1 1)
          { request := 8, result := 1, offset := 4096, crc := 7 }, some (3 + 8))
      ∧ ble_dfu_req_handler_callback_checked nrf5 (Dfu.mk0 0 0)
          { request := 6, result := 1, max_size := 4096 }
        = some (ble_dfu_req_handler_callback nrf5 (Dfu.mk0 0 0)
            { request := 6, result := 1, max_size := 4096 }, some (3 + 12)) :=
  ⟨(C12_response_size_bound nrf5 (Dfu.mk0 1 1)
      { request := 8, result := 1, offset := 4096, crc := 7 }
      (by decide) (by decide) (by decide) (by decide) (by decide)).2.1 (by decide),
   (C12_response_size_bound nrf5 (Dfu.mk0 0 0)
      { request := 6, result := 1, max_size := 4096 }
      (by decide) (by decide) (by decide) (by decide) (by decide)).2.1 (by decide)⟩

/-! ## C13: the range of the countdown -/

/-- What a control point write can do to the target and the countdown: leave
both, reload the countdown, or set both to one 16-bit value. -/
theorem on_ctrl_pt_write_vars (c : Sdk) (o : Outside) (s : Dfu) (e : WriteEvt) :
    ((on_ctrl_pt_write c o s e).2.m_pkt_notif_target = s.m_pkt_notif_target
        ∧ (on_ctrl_pt_write c o s e).2.m_pkt_notif_target_cnt = s.m_pkt_notif_target_cnt)
      ∨ ((on_ctrl_pt_write c o s e).2.m_pkt_notif_target = s.m_pkt_notif_target
        ∧ (on_ctrl_pt_write c o s e).2.m_pkt_notif_target_cnt = s.m_pkt_notif_target)
      ∨ ((on_ctrl_pt_write c o s e).2.m_pkt_notif_target < 65536
        ∧ (on_ctrl_pt_write c o s e).2.m_pkt_notif_target_cnt
            = (on_ctrl_pt_write c o s e).2.m_pkt_notif_target) := by
  unfold on_ctrl_pt_write
  dsimp only
  split_ifs
  · left; simp [nrf_dfu_req_handler_on_req, read_data]
  · right; left; simp [nrf_dfu_req_handler_on_req, read_data, uint32_decode]
  · right; left; simp [nrf_dfu_req_handler_on_req, read_data, uint32_decode]
  · right; right
    simp only [nrf_dfu_req_handler_on_req, and_true]
    exact Nat.mod_lt _ (by norm_num)
  · left; simp [nrf_dfu_req_handler_on_req, read_data]

/-- The authorization gate leaves the target and the countdown alone. -/
theorem on_rw_authorize_req_vars (c : Sdk) (o : Outside) (s : Dfu) (r : AuthorizeReq) :
    (on_rw_authorize_req c o s r).2.m_pkt_notif_target = s.m_pkt_notif_target
      ∧ (on_rw_authorize_req c o s r).2.m_pkt_notif_target_cnt = s.m_pkt_notif_target_cnt := by
  unfold on_rw_authorize_req
  split_ifs <;> simp [sd_ble_gatts_rw_authorize_reply]

/-- The data channel write leaves the target and the countdown alone. -/
theorem on_write_vars (c : Sdk) (o : Outside) (s : Dfu) (e : WriteEvt) :
    (on_write c o s e).m_pkt_notif_target = s.m_pkt_notif_target
      ∧ (on_write c o s e).m_pkt_notif_target_cnt = s.m_pkt_notif_target_cnt := by
  unfold on_write
  split_ifs
  · exact ⟨rfl, rfl⟩
  · cases hfree : s.m_buffer_pool.free with
    | nil => simp [nrf_balloc_alloc, hfree]
    | cons b rest =>
      simp only [nrf_balloc_alloc, hfree, nrf_dfu_req_handler_on_req]
      split_ifs <;> exact ⟨rfl, rfl⟩

/-- Every handler keeps the countdown in range. -/
theorem step_countdown_in_range (c : Sdk) (s : Dfu) (i : Input)
    (h : countdown_in_range s) : countdown_in_range (step c s i) := by
  unfold countdown_in_range at h ⊢
  obtain ⟨hlt, hrange⟩ := h
  cases i with
  | authorize o r =>
    simp only [step, dfu_ble_authorize_handler]
    obtain ⟨a1, a2⟩ := on_rw_authorize_req_vars c o s r
    split_ifs
    · rcases on_ctrl_pt_write_vars c o (on_rw_authorize_req c o s r).2 r.write with
        ⟨h1, h2⟩ | ⟨h1, h2⟩ | ⟨h1, h2⟩
      · rw [h1, h2, a1, a2]; exact ⟨hlt, hrange⟩
      · rw [h1, h2, a1]; exact ⟨hlt, fun hp => ⟨hp, le_refl _⟩⟩
      · rw [h2]; exact ⟨h1, fun hp => ⟨hp, le_refl _⟩⟩
    · rw [a1, a2]; exact ⟨hlt, hrange⟩
    · exact ⟨hlt, hrange⟩
  | ctrl_pt_write o e =>
    simp only [step]
    rcases on_ctrl_pt_write_vars c o s e with ⟨h1, h2⟩ | ⟨h1, h2⟩ | ⟨h1, h2⟩
    · rw [h1, h2]; exact ⟨hlt, hrange⟩
    · rw [h1, h2]; exact ⟨hlt, fun hp => ⟨hp, le_refl _⟩⟩
    · rw [h2]; exact ⟨h1, fun hp => ⟨hp, le_refl _⟩⟩
  | write o e =>
    simp only [step]
    obtain ⟨w1, w2⟩ := on_write_vars c o s e
    rw [w1, w2]; exact ⟨hlt, hrange⟩
  | response p_res =>
    simp only [step, ble_dfu_req_handler_callback]
    split_ifs with hw hq
    · refine ⟨hlt, ?_⟩
      intro hp
      have hp0 : s.m_pkt_notif_target > 0 := hp
      obtain ⟨r1, r2⟩ := hrange hp0
      have hne : s.m_pkt_notif_target ≠ 0 := by omega
      rcases hq with hq | ⟨hq, _⟩
      · exact absurd hq hne
      · show 1 ≤ (s.m_pkt_notif_target_cnt + 65535) % 65536
            ∧ (s.m_pkt_notif_target_cnt + 65535) % 65536 ≤ s.m_pkt_notif_target
        omega
    · obtain ⟨v1, v2⟩ := callback_respond_vars c
        { s with m_pkt_notif_target_cnt := s.m_pkt_notif_target }
        { p_res with request := c.NRF_DFU_OP_CRC_GET }
      rw [v1, v2]
      exact ⟨hlt, fun hp => ⟨hp, le_refl _⟩⟩
    · obtain ⟨v1, v2⟩ := callback_respond_vars c s p_res
      rw [v1, v2]; exact ⟨hlt, hrange⟩

/-- Every run keeps the countdown in range. -/
theorem run_countdown_in_range (c : Sdk) (inputs : List Input) :
    ∀ s : Dfu, countdown_in_range s → countdown_in_range (run c s inputs) := by
  induction inputs with
  | nil => intro s h; simpa [run] using h
  | cons i rest ih =>
    intro s h
    have hrun : run c s (i :: rest) = run c (step c s i) rest := by simp [run]
    rw [hrun]
    exact ih _ (step_countdown_in_range c s i h)

/-- Claim C13: in every state reached from a state with target 0 (the initial
state, whatever the countdown) by any sequence of control point writes,
completions, authorize requests and data writes, a non-zero target comes with
a countdown between 1 and the target, so the 16-bit decrement of the
countdown does not wrap: the decremented value plus 1 is the countdown. -/
theorem C13_countdown_range (c : Sdk) (s : Dfu) (inputs : List Input)
    (h0 : s.m_pkt_notif_target = 0) :
    (run c s inputs).m_pkt_notif_target > 0 →
      1 ≤ (run c s inputs).m_pkt_notif_target_cnt
        ∧ (run c s inputs).m_pkt_notif_target_cnt ≤ (run c s inputs).m_pkt_notif_target
        ∧ ((run c s inputs).m_pkt_notif_target_cnt + 65535) % 65536 + 1
            = (run c s inputs).m_pkt_notif_target_cnt := by
  have hinit : countdown_in_range s := by
    unfold countdown_in_range
    rw [h0]
    exact ⟨by norm_num, fun hp => absurd hp (by norm_num)⟩
  obtain ⟨hlt, hrange⟩ := run_countdown_in_range c inputs s hinit
  intro hp
  obtain ⟨r1, r2⟩ := hrange hp
  refine ⟨r1, r2, ?_⟩
  omega

/-- Claim C13 after two Write completions under target 0, SetNotificationTarget 2
and one more Write completion. -/
theorem C13_countdown_range_witness :
    (run nrf5 (Dfu.mk0 0 0) inputs_wrap_then_set).m_pkt_notif_target > 0
      ∧ 1 ≤ (run nrf5 (Dfu.mk0 0 0) inputs_wrap_then_set).m_pkt_notif_target_cnt
      ∧ (run nrf5 (Dfu.mk0 0 0) inputs_wrap_then_set).m_pkt_notif_target_cnt
          ≤ (run nrf5 (Dfu.mk0 0 0) inputs_wrap_then_set).m_pkt_notif_target
      ∧ ((run nrf5 (Dfu.mk0 0 0) inputs_wrap_then_set).m_pkt_notif_target_cnt + 65535) % 65536
          + 1 = (run nrf5 (Dfu.mk0 0 0) inputs_wrap_then_set).m_pkt_notif_target_cnt :=
  ⟨by decide, C13_countdown_range nrf5 (Dfu.mk0 0 0) inputs_wrap_then_set rfl (by decide)⟩

end DfuBle
